import Mathlib

/-!
Verification development for the OAuth authentication and token-lifecycle
manager of the google-mcp repository (source file: the module defining
`GoogleOAuth`, `findAvailablePort`, `isPortAvailable`, `getConfigDir`,
`getDataDir`).

The TypeScript source is shallowly embedded here:

* JavaScript strings observed by the code only through truthiness and
  JSON parsing are modelled by `JsStr` (emptiness flag plus parse result);
  this captures exactly the two observations the source makes of such a
  string (`if (s)` and `JSON.parse(s)`).
* Filesystem paths are modelled as lists of components (`path.join`
  concatenates components; separators never matter for the claims).
* The filesystem is an explicit association map of directories and files.
* Fallible Node calls (`fs.writeFileSync`, `fs.mkdirSync`, `fs.unlinkSync`)
  and provider calls (`refreshAccessToken`, `getToken`) are driven by an
  explicit `Behavior` record; a thrown JS exception is an `Except.error`
  carrying the state at the throw point.
* The interactive `authenticate()` callback listener is modelled as a step
  function over events (callback request, server error, timeout); the JS
  promise `resolve` is first-wins, as in the event-loop semantics.
-/

/-- A JSON value (the fragment produced and consumed by the source:
`JSON.parse` / `JSON.stringify` of credential and token objects).
Token numbers (`expiry_date` epoch milliseconds) are integers. -/
inductive Json where
  | null : Json
  | bool (b : Bool) : Json
  | num (n : Int) : Json
  | str (s : String) : Json
  | arr (elems : List Json) : Json
  | obj (fields : List (String × Json)) : Json

/-- JavaScript truthiness of a JSON value
(null, false, 0 and the empty string are falsy). -/
def jsTruthy : Json → Bool
  | .null => false
  | .bool b => b
  | .num n => n != 0
  | .str s => s != ""
  | .arr _ => true
  | .obj _ => true

/-- Key lookup in a JSON object field list (first binding wins,
as JavaScript property access on parsed JSON). -/
def jsLookup : List (String × Json) → String → Option Json
  | [], _ => none
  | (k, v) :: rest, key => if k = key then some v else jsLookup rest key

/-- Property read `j[k]` on a parsed JSON value: absent unless `j` is an
object with the key. -/
def jsGetField (j : Json) (k : String) : Option Json :=
  match j with
  | .obj fields => jsLookup fields k
  | _ => none

/-- Read a string-valued property (absent when missing or not a string). -/
def jsGetStr (j : Json) (k : String) : Option String :=
  (jsGetField j k).bind fun v =>
    match v with
    | .str s => some s
    | _ => none

/-- Read an integer-valued property (absent when missing or not a number). -/
def jsGetInt (j : Json) (k : String) : Option Int :=
  (jsGetField j k).bind fun v =>
    match v with
    | .num n => some n
    | _ => none

/-- Read an array-of-strings property; a non-string element becomes `none`
(the TypeScript interface declares `redirect_uris: string[]`). -/
def jsGetStrArr (j : Json) (k : String) : Option (List (Option String)) :=
  (jsGetField j k).bind fun v =>
    match v with
    | .arr xs => some (xs.map fun x =>
        match x with
        | .str s => some s
        | _ => none)
    | _ => none

/-- A JavaScript string as observed by the source: the code looks at such a
string only through its truthiness (`if (s)`, i.e. non-emptiness) and
through `JSON.parse(s)` (which throws exactly when the parse result is
absent). A real string `""` corresponds to `⟨true, none⟩`; every reachable
value satisfies `isEmpty = true → parseJson = none`. -/
structure JsStr where
  isEmpty : Bool
  parseJson : Option Json

/-- Truthiness of an optional environment-variable string:
absent and empty are falsy. -/
def envStrTruthy : Option String → Bool
  | none => false
  | some s => s != ""

/-- Truthiness of an optional JSON-holding environment variable. -/
def jsEnvTruthy : Option JsStr → Bool
  | none => false
  | some js => !js.isEmpty

/-- The process environment variables the source reads. -/
structure Env where
  googleCredentialsJson : Option JsStr
  googleTokensJson : Option JsStr
  xdgConfigHome : Option String
  xdgDataHome : Option String
  appData : Option String

/-- `os.platform()`: Windows, macOS, or the Linux-like rest. -/
inductive Platform where
  | win32 : Platform
  | darwin : Platform
  | other : Platform
deriving DecidableEq

/-- The host facts the path resolver consults:
`os.platform()` and `os.homedir()`. -/
structure World where
  platform : Platform
  home : String

/-- A filesystem path as a list of components;
`path.join(a, b, c)` is `[a, b, c]`. -/
abbrev FilePath' := List String

/-- `const APP_NAME = "google-mcp"`. -/
def APP_NAME : String := "google-mcp"

/-- `getConfigDir()` from the source: Windows uses `APPDATA` (or
`home/AppData/Roaming`); macOS prefers `XDG_CONFIG_HOME` when truthy, else
`~/Library/Application Support`; otherwise `XDG_CONFIG_HOME` or
`~/.config`; always suffixed with the app name. -/
def getConfigDir (w : World) (env : Env) : FilePath' :=
  match w.platform with
  | .win32 =>
    match env.appData with
    | some s => if s != "" then [s, APP_NAME] else [w.home, "AppData", "Roaming", APP_NAME]
    | none => [w.home, "AppData", "Roaming", APP_NAME]
  | .darwin =>
    match env.xdgConfigHome with
    | some s =>
      if s != "" then [s, APP_NAME]
      else [w.home, "Library", "Application Support", APP_NAME]
    | none => [w.home, "Library", "Application Support", APP_NAME]
  | .other =>
    match env.xdgConfigHome with
    | some s => if s != "" then [s, APP_NAME] else [w.home, ".config", APP_NAME]
    | none => [w.home, ".config", APP_NAME]

/-- `getDataDir()` from the source: like `getConfigDir` but with
`XDG_DATA_HOME` and `~/.local/share` on Linux-like platforms. -/
def getDataDir (w : World) (env : Env) : FilePath' :=
  match w.platform with
  | .win32 =>
    match env.appData with
    | some s => if s != "" then [s, APP_NAME] else [w.home, "AppData", "Roaming", APP_NAME]
    | none => [w.home, "AppData", "Roaming", APP_NAME]
  | .darwin =>
    match env.xdgDataHome with
    | some s =>
      if s != "" then [s, APP_NAME]
      else [w.home, "Library", "Application Support", APP_NAME]
    | none => [w.home, "Library", "Application Support", APP_NAME]
  | .other =>
    match env.xdgDataHome with
    | some s => if s != "" then [s, APP_NAME] else [w.home, ".local", "share", APP_NAME]
    | none => [w.home, ".local", "share", APP_NAME]

/-- `CREDENTIALS_PATH = path.join(getConfigDir(), "credentials.json")`. -/
def credentialsPath (w : World) (env : Env) : FilePath' :=
  getConfigDir w env ++ ["credentials.json"]

/-- `TOKEN_PATH = path.join(getDataDir(), "tokens.json")`. -/
def tokenPath (w : World) (env : Env) : FilePath' :=
  getDataDir w env ++ ["tokens.json"]

/-- The documented convention-table directory, written from the
specification text: an override environment variable is used when set to a
non-empty value (XDG convention treats an empty variable as unset),
otherwise the platform default; the app-name segment is appended. -/
def specDirFrom (override : Option String) (fallback : List String) : FilePath' :=
  (match override with
   | some s => if s != "" then [s] else fallback
   | none => fallback) ++ [APP_NAME]

/-- Config directory per the specification convention table:
Windows `<APPDATA or home/AppData/Roaming>/<app-name>`; macOS XDG override
else `~/Library/Application Support/<app-name>`; Linux-like
`$XDG_CONFIG_HOME or ~/.config` `/<app-name>`. -/
def specConfigDir (w : World) (env : Env) : FilePath' :=
  match w.platform with
  | .win32 => specDirFrom env.appData [w.home, "AppData", "Roaming"]
  | .darwin => specDirFrom env.xdgConfigHome [w.home, "Library", "Application Support"]
  | .other => specDirFrom env.xdgConfigHome [w.home, ".config"]

/-- Data directory per the specification convention table. -/
def specDataDir (w : World) (env : Env) : FilePath' :=
  match w.platform with
  | .win32 => specDirFrom env.appData [w.home, "AppData", "Roaming"]
  | .darwin => specDirFrom env.xdgDataHome [w.home, "Library", "Application Support"]
  | .other => specDirFrom env.xdgDataHome [w.home, ".local", "share"]

/-- `const PORT_RANGE_START = 3000`. -/
def PORT_RANGE_START : Nat := 3000

/-- `const PORT_RANGE_END = 3100`. -/
def PORT_RANGE_END : Nat := 3100

/-- The sequential probe loop of `findAvailablePort`, with the remaining
number of candidates as fuel: probe the current port, return it on success,
otherwise advance. The loopback bind probe `isPortAvailable` is the oracle
`avail`. -/
def findAvailablePortAux (avail : Nat → Bool) (port : Nat) : Nat → Option Nat
  | 0 => none
  | fuel + 1 =>
    if avail port then some port else findAvailablePortAux avail (port + 1) fuel

/-- `findAvailablePort(startPort, endPort)`: scan the inclusive range
`[startPort, endPort]`; `none` models the thrown no-port-available error. -/
def findAvailablePort (avail : Nat → Bool) (startPort endPort : Nat) : Option Nat :=
  findAvailablePortAux avail startPort (endPort + 1 - startPort)

theorem findAvailablePortAux_some {avail : Nat → Bool} {s fuel p : Nat}
    (h : findAvailablePortAux avail s fuel = some p) :
    s ≤ p ∧ p < s + fuel ∧ avail p = true ∧
      ∀ q, s ≤ q → q < p → avail q = false := by
  induction fuel generalizing s with
  | zero => simp [findAvailablePortAux] at h
  | succ n ih =>
    rw [findAvailablePortAux] at h
    by_cases hs : avail s = true
    · rw [if_pos hs] at h
      cases h
      exact ⟨le_refl _, by omega, hs, fun q hq hq' => by omega⟩
    · rw [if_neg hs] at h
      obtain ⟨h1, h2, h3, h4⟩ := ih h
      refine ⟨by omega, by omega, h3, fun q hq hq' => ?_⟩
      rcases Nat.eq_or_lt_of_le hq with rfl | hlt
      · exact Bool.eq_false_iff.mpr hs
      · exact h4 q hlt hq'

theorem findAvailablePortAux_none {avail : Nat → Bool} {s fuel : Nat} :
    findAvailablePortAux avail s fuel = none ↔
      ∀ q, s ≤ q → q < s + fuel → avail q = false := by
  induction fuel generalizing s with
  | zero =>
    constructor
    · intro _ q hq hq'
      exact absurd hq' (by omega)
    · intro _
      rfl
  | succ n ih =>
    rw [findAvailablePortAux]
    by_cases hs : avail s = true
    · simp only [if_pos hs]
      constructor
      · intro h; cases h
      · intro h
        have := h s (le_refl _) (by omega)
        rw [hs] at this
        cases this
    · simp only [if_neg hs, ih]
      constructor
      · intro h q hq hq'
        rcases Nat.eq_or_lt_of_le hq with rfl | hlt
        · exact Bool.eq_false_iff.mpr hs
        · exact h q hlt (by omega)
      · intro h q hq hq'
        exact h q (by omega) (by omega)

/-- C5: `findAvailablePort` scans the inclusive range sequentially and
returns the first port whose bind probe succeeds — the result is within
the range, its probe succeeds, and every smaller port of the range failed;
it reports no-port-available exactly when every port of the range fails;
the default range `PORT_RANGE_START`–`PORT_RANGE_END` is the 101-port
window 3000–3100. -/
theorem c5_find_available_port :
    (∀ (avail : Nat → Bool) (s e p : Nat),
      findAvailablePort avail s e = some p →
        s ≤ p ∧ p ≤ e ∧ avail p = true ∧ ∀ q, s ≤ q → q < p → avail q = false) ∧
    (∀ (avail : Nat → Bool) (s e : Nat),
      findAvailablePort avail s e = none ↔ ∀ q, s ≤ q → q ≤ e → avail q = false) ∧
    PORT_RANGE_START = 3000 ∧ PORT_RANGE_END = 3100 ∧
    PORT_RANGE_END + 1 - PORT_RANGE_START = 101 := by
  refine ⟨?_, ?_, rfl, rfl, rfl⟩
  · intro avail s e p h
    obtain ⟨h1, h2, h3, h4⟩ := findAvailablePortAux_some h
    exact ⟨h1, by omega, h3, h4⟩
  · intro avail s e
    rw [findAvailablePort, findAvailablePortAux_none]
    constructor
    · intro h q hq hq'
      exact h q hq (by omega)
    · intro h q hq hq'
      exact h q hq (by omega)

/-- A concrete probe predicate: only port 3002 is free. -/
def availProbe : Nat → Bool := fun p => p == 3002

/-- Witness for C5: on the probe where only port 3002 is free, the scan of
the default range returns 3002, and the theorem yields the range and
first-fit facts for it. -/
theorem c5_find_available_port_witness :
    3000 ≤ 3002 ∧ 3002 ≤ 3100 ∧ availProbe 3002 = true ∧
      ∀ q, 3000 ≤ q → q < 3002 → availProbe q = false :=
  c5_find_available_port.1 availProbe 3000 3100 3002 (by decide)

/-- C8: the path resolver agrees with the documented convention table on
every platform and environment: Windows uses `APPDATA` (or the
`AppData/Roaming` home fallback) for both directories; macOS prefers the
XDG override when set (non-empty) and falls back to
`~/Library/Application Support`; Linux-like platforms use
`$XDG_CONFIG_HOME` or `~/.config` for config and `$XDG_DATA_HOME` or
`~/.local/share` for data. -/
theorem c8_path_resolver (w : World) (env : Env) :
    getConfigDir w env = specConfigDir w env ∧
    getDataDir w env = specDataDir w env := by
  obtain ⟨p, home⟩ := w
  constructor <;> cases p <;>
    simp only [getConfigDir, getDataDir, specConfigDir, specDataDir, specDirFrom]
  · cases env.appData with
    | none => rfl
    | some s => by_cases h : s != "" <;> simp [h]
  · cases env.xdgConfigHome with
    | none => rfl
    | some s => by_cases h : s != "" <;> simp [h]
  · cases env.xdgConfigHome with
    | none => rfl
    | some s => by_cases h : s != "" <;> simp [h]
  · cases env.appData with
    | none => rfl
    | some s => by_cases h : s != "" <;> simp [h]
  · cases env.xdgDataHome with
    | none => rfl
    | some s => by_cases h : s != "" <;> simp [h]
  · cases env.xdgDataHome with
    | none => rfl
    | some s => by_cases h : s != "" <;> simp [h]

/-- `Auth.Credentials`, the token set shape the source persists:
`{ access_token?, refresh_token?, expiry_date?, scope?, token_type? }`.
Absent fields are `none` (JSON.stringify drops them). -/
structure TokenSet where
  access_token : Option String
  refresh_token : Option String
  expiry_date : Option Int
  scope : Option String
  token_type : Option String
deriving DecidableEq

/-- One credential block of the credentials file
(`installed` or `web`): `client_id`, `client_secret`, `redirect_uris`. -/
structure CredBlock where
  client_id : Option String
  client_secret : Option String
  redirect_uris : Option (List (Option String))
deriving DecidableEq

/-- The `CredentialsFile` shape: optional `installed` and `web` blocks.
A falsy JSON value in either position is recorded as `none`, matching the
later `credentials.installed || credentials.web` disjunction. -/
structure CredentialsFile where
  installed : Option CredBlock
  web : Option CredBlock
deriving DecidableEq

/-- A singleton field list for a present optional string property. -/
def optStrField (k : String) : Option String → List (String × Json)
  | none => []
  | some s => [(k, .str s)]

/-- A singleton field list for a present optional integer property. -/
def optIntField (k : String) : Option Int → List (String × Json)
  | none => []
  | some n => [(k, .num n)]

/-- `JSON.stringify(tokens)` at the JSON-value level: an object holding
exactly the present fields of the token set. -/
def tokensToJson (t : TokenSet) : Json :=
  .obj (optStrField "access_token" t.access_token ++
        optStrField "refresh_token" t.refresh_token ++
        optStrField "scope" t.scope ++
        optStrField "token_type" t.token_type ++
        optIntField "expiry_date" t.expiry_date)

/-- `JSON.parse(content) as Auth.Credentials`: the cast performs no
validation, so this is the duck-typed field read of the five token
properties. -/
def jsonToTokens (j : Json) : TokenSet where
  access_token := jsGetStr j "access_token"
  refresh_token := jsGetStr j "refresh_token"
  expiry_date := jsGetInt j "expiry_date"
  scope := jsGetStr j "scope"
  token_type := jsGetStr j "token_type"

/-- Duck-typed read of one credential block. -/
def jsonToCredBlock (j : Json) : CredBlock where
  client_id := jsGetStr j "client_id"
  client_secret := jsGetStr j "client_secret"
  redirect_uris := jsGetStrArr j "redirect_uris"

/-- `JSON.parse(content) as CredentialsFile`: duck-typed read of the two
blocks; a falsy block value is recorded as absent (it would be skipped by
the `||` chain). -/
def jsonToCreds (j : Json) : CredentialsFile where
  installed :=
    match jsGetField j "installed" with
    | some v => if jsTruthy v then some (jsonToCredBlock v) else none
    | none => none
  web :=
    match jsGetField j "web" with
    | some v => if jsTruthy v then some (jsonToCredBlock v) else none
    | none => none

/-- The file content written by `saveTokens`:
`JSON.stringify(tokens, null, 2)` is a non-empty string whose parse is the
token object (ECMAScript guarantees `JSON.parse` inverts `JSON.stringify`
on plain JSON data). -/
def serializeTokens (t : TokenSet) : JsStr :=
  ⟨false, some (tokensToJson t)⟩

theorem jsonToTokens_tokensToJson (t : TokenSet) :
    jsonToTokens (tokensToJson t) = t := by
  obtain ⟨a, r, e, sc, ty⟩ := t
  cases a <;> cases r <;> cases e <;> cases sc <;> cases ty <;> rfl

/-- The filesystem: directories and files the source touches, each with the
mode requested at creation. File contents are the strings the source
writes and parses, in their `JsStr` observation form. -/
structure Fs where
  dirs : List (FilePath' × Nat)
  files : List (FilePath' × JsStr × Nat)

/-- Directory-mode lookup (`fs.existsSync` on a directory). -/
def Fs.lookupDir (fs : Fs) (p : FilePath') : Option Nat :=
  (fs.dirs.find? fun d => d.1 == p).map fun d => d.2

/-- `fs.existsSync` on a directory path. -/
def Fs.dirExists (fs : Fs) (p : FilePath') : Bool :=
  (fs.lookupDir p).isSome

/-- File lookup (`fs.existsSync` / `fs.readFileSync` on a file path). -/
def Fs.lookupFile (fs : Fs) (p : FilePath') : Option (JsStr × Nat) :=
  (fs.files.find? fun f => f.1 == p).map fun f => f.2

/-- `fs.mkdirSync(p, { recursive: true, mode })`. -/
def Fs.mkdir (fs : Fs) (p : FilePath') (mode : Nat) : Fs :=
  { fs with dirs := (p, mode) :: fs.dirs }

/-- `fs.writeFileSync(p, content, { mode })`: replaces or creates the
file, recording the requested mode. -/
def Fs.writeFile (fs : Fs) (p : FilePath') (content : JsStr) (mode : Nat) : Fs :=
  { fs with files := (p, content, mode) :: fs.files.filter fun f => !(f.1 == p) }

/-- `fs.unlinkSync(p)`. -/
def Fs.removeFile (fs : Fs) (p : FilePath') : Fs :=
  { fs with files := fs.files.filter fun f => !(f.1 == p) }

/-- Outcomes of the fallible Node and provider calls the source makes,
fixed per scenario: refresh result (absent = the refresh promise
rejects, e.g. network error or revoked grant), code-exchange result per
authorization code, and whether the filesystem primitives succeed.
`portAvail` is the loopback bind probe of `isPortAvailable`. -/
structure Behavior where
  refreshResult : Option TokenSet
  getToken : String → Option TokenSet
  writeOk : Bool
  mkdirOk : Bool
  unlinkOk : Bool
  portAvail : Nat → Bool

/-- The in-memory `Auth.OAuth2Client`: client id/secret, the redirect URI
it was constructed with, and the credentials bound by `setCredentials`. -/
structure ClientState where
  clientId : String
  clientSecret : String
  redirectUri : String
  credentials : Option TokenSet
deriving DecidableEq

/-- The mutable fields of the `GoogleOAuth` class. -/
structure GoogleOAuth where
  oauth2Client : Option ClientState
  isAuthenticated : Bool
  directoriesInitialized : Bool
deriving DecidableEq

/-- A thrown JavaScript exception escaping a Node filesystem call. -/
inductive JsError where
  | fsWrite : JsError
  | fsUnlink : JsError
deriving DecidableEq

/-- Result of a session-manager operation: either a value with the updated
session and filesystem, or a propagated exception carrying the state at
the throw point. -/
abbrev OpResult (α : Type) := Except (JsError × GoogleOAuth × Fs) (α × GoogleOAuth × Fs)

/-- The operation returned normally (no exception escaped). -/
def opOk {α : Type} (r : OpResult α) : Prop :=
  ∃ v st fs, r = Except.ok (v, st, fs)

/-- `ensureDirectoriesExist()`: skipped when the in-process flag is set;
otherwise creates the missing config and data directories with mode 0700
inside a try/catch (a `mkdirSync` failure is logged and swallowed, and the
flag stays unset). -/
def ensureDirectoriesExist (w : World) (env : Env) (beh : Behavior)
    (st : GoogleOAuth) (fs : Fs) : GoogleOAuth × Fs :=
  if st.directoriesInitialized then (st, fs)
  else
    let cfg := getConfigDir w env
    let dat := getDataDir w env
    if !fs.dirExists cfg && !beh.mkdirOk then (st, fs)
    else
      let fs1 := if fs.dirExists cfg then fs else fs.mkdir cfg 0o700
      if !fs1.dirExists dat && !beh.mkdirOk then (st, fs1)
      else
        let fs2 := if fs1.dirExists dat then fs1 else fs1.mkdir dat 0o700
        ({ st with directoriesInitialized := true }, fs2)

/-- `saveTokens(tokens)`: a no-op when `GOOGLE_TOKENS_JSON` is truthy;
otherwise ensures directories exist and writes the token file with mode
0600. The write is not wrapped in try/catch, so its failure (IO error or
missing parent directory) propagates. -/
def saveTokensOp (w : World) (env : Env) (beh : Behavior) (tokens : TokenSet)
    (st : GoogleOAuth) (fs : Fs) : OpResult Unit :=
  if jsEnvTruthy env.googleTokensJson then Except.ok ((), st, fs)
  else
    let (st1, fs1) := ensureDirectoriesExist w env beh st fs
    if beh.writeOk && fs1.dirExists (tokenPath w env).dropLast then
      Except.ok ((), st1, fs1.writeFile (tokenPath w env) (serializeTokens tokens) 0o600)
    else Except.error (JsError.fsWrite, st1, fs1)

/-- `loadCredentials()`: environment variable first (a truthy value is
parsed; a parse failure is caught and yields absent without touching the
file); otherwise the credentials file is read and parsed, failures again
yielding absent. The second component records whether the file was read. -/
def loadCredentials (w : World) (env : Env) (fs : Fs) :
    Option CredentialsFile × Bool :=
  match env.googleCredentialsJson with
  | some js =>
    if !js.isEmpty then
      match js.parseJson with
      | some j => (some (jsonToCreds j), false)
      | none => (none, false)
    else
      match fs.lookupFile (credentialsPath w env) with
      | some (content, _) =>
        match content.parseJson with
        | some j => (some (jsonToCreds j), true)
        | none => (none, true)
      | none => (none, false)
  | none =>
    match fs.lookupFile (credentialsPath w env) with
    | some (content, _) =>
      match content.parseJson with
      | some j => (some (jsonToCreds j), true)
      | none => (none, true)
    | none => (none, false)

/-- `loadTokens()`: same dual-source precedence applied to the token
file. -/
def loadTokens (w : World) (env : Env) (fs : Fs) :
    Option TokenSet × Bool :=
  match env.googleTokensJson with
  | some js =>
    if !js.isEmpty then
      match js.parseJson with
      | some j => (some (jsonToTokens j), false)
      | none => (none, false)
    else
      match fs.lookupFile (tokenPath w env) with
      | some (content, _) =>
        match content.parseJson with
        | some j => (some (jsonToTokens j), true)
        | none => (none, true)
      | none => (none, false)
  | none =>
    match fs.lookupFile (tokenPath w env) with
    | some (content, _) =>
      match content.parseJson with
      | some j => (some (jsonToTokens j), true)
      | none => (none, true)
    | none => (none, false)

/-- JS truthiness of an optional string value read off parsed JSON
(`if (!client_id || ...)`): absent and empty are falsy. -/
def optTruthy : Option String → Bool
  | none => false
  | some s => s != ""

/-- The fixed fallback redirect URI of the source. -/
def defaultRedirectUri : String := "http://localhost:3000/oauth2callback"

/-- `credentials.installed || credentials.web || {}` followed by
destructuring: the block the source uses. -/
def pickBlock (cf : CredentialsFile) : Option CredBlock :=
  cf.installed.orElse fun _ => cf.web

/-- The destructured `client_id`/`client_secret` when both are truthy
(`if (!client_id || !client_secret) return false`). -/
def credIdSecret (cf : CredentialsFile) : Option (String × String) :=
  match pickBlock cf with
  | none => none
  | some b =>
    match b.client_id, b.client_secret with
    | some cid, some csec =>
      if cid != "" && csec != "" then some (cid, csec) else none
    | _, _ => none

/-- `redirect_uris?.[0] || "http://localhost:3000/oauth2callback"`:
first listed redirect URI when present and truthy, else the fixed
default (non-string entries fall back to the default; the TypeScript
type declares the entries as strings). -/
def firstRedirectUri (ru : Option (List (Option String))) : String :=
  match ru with
  | some (some s :: _) => if s = "" then defaultRedirectUri else s
  | _ => defaultRedirectUri

/-- `this.oauth2Client.setCredentials(tokens)`. -/
def setClientCreds (st : GoogleOAuth) (t : TokenSet) : GoogleOAuth :=
  match st.oauth2Client with
  | some c => { st with oauth2Client := some { c with credentials := some t } }
  | none => st

/-- `tokens.expiry_date && tokens.expiry_date < Date.now()`:
JavaScript truthiness makes an absent or zero expiry skip the refresh. -/
def expiryNeedsRefresh (ed : Option Int) (now : Int) : Bool :=
  match ed with
  | some e => e != 0 && e < now
  | none => false

/-- `this.oauth2Client.refreshAccessToken()`: the Google client throws
when no truthy refresh token is bound; otherwise the provider decides
(`Behavior.refreshResult`, absent = the promise rejects). -/
def refreshOutcome (beh : Behavior) (t : TokenSet) : Option TokenSet :=
  if optTruthy t.refresh_token then beh.refreshResult else none

/-- `initialize()`: load credentials (absent or invalid format returns
false); construct the client with the first redirect URI or the default;
load tokens (absent returns false with the client kept); bind the tokens;
when the expiry is truthy and past, attempt a refresh inside try/catch —
on success persist and bind the new tokens and report authenticated, on
any failure (including a save failure) clear the authenticated flag and
return false; with no refresh needed report authenticated. -/
def oauthInit (w : World) (env : Env) (beh : Behavior) (now : Int)
    (st : GoogleOAuth) (fs : Fs) : OpResult Bool :=
  match (loadCredentials w env fs).1 with
  | none => Except.ok (false, st, fs)
  | some cf =>
    match credIdSecret cf with
    | none => Except.ok (false, st, fs)
    | some (cid, csec) =>
      let client : ClientState :=
        ⟨cid, csec, firstRedirectUri ((pickBlock cf).bind fun b => b.redirect_uris), none⟩
      let st1 := { st with oauth2Client := some client }
      match (loadTokens w env fs).1 with
      | none => Except.ok (false, st1, fs)
      | some toks =>
        let st2 := setClientCreds st1 toks
        if expiryNeedsRefresh toks.expiry_date now then
          match refreshOutcome beh toks with
          | none => Except.ok (false, { st2 with isAuthenticated := false }, fs)
          | some newToks =>
            match saveTokensOp w env beh newToks st2 fs with
            | Except.error (_, stE, fsE) =>
              Except.ok (false, { stE with isAuthenticated := false }, fsE)
            | Except.ok ((), st3, fs3) =>
              let st4 := setClientCreds st3 newToks
              Except.ok (true, { st4 with isAuthenticated := true }, fs3)
        else Except.ok (true, { st2 with isAuthenticated := true }, fs)

/-- `isReady()`: authenticated and a client handle exists. -/
def isReady (st : GoogleOAuth) : Bool :=
  st.isAuthenticated && st.oauth2Client.isSome

/-- `getClient()`. -/
def getClient (st : GoogleOAuth) : Option ClientState :=
  st.oauth2Client

/-- The scope list requested on every interactive authorization. -/
def SCOPES : List String :=
  [ "https://www.googleapis.com/auth/documents",
    "https://www.googleapis.com/auth/spreadsheets",
    "https://www.googleapis.com/auth/drive",
    "https://www.googleapis.com/auth/tasks",
    "https://www.googleapis.com/auth/calendar",
    "https://www.googleapis.com/auth/gmail.modify",
    "https://www.googleapis.com/auth/gmail.send",
    "https://www.googleapis.com/auth/contacts",
    "https://www.googleapis.com/auth/presentations",
    "https://www.googleapis.com/auth/youtube",
    "https://www.googleapis.com/auth/forms.body",
    "https://www.googleapis.com/auth/forms.responses.readonly",
    "https://www.googleapis.com/auth/chat.spaces",
    "https://www.googleapis.com/auth/chat.spaces.create",
    "https://www.googleapis.com/auth/chat.messages",
    "https://www.googleapis.com/auth/chat.messages.create",
    "https://www.googleapis.com/auth/chat.memberships",
    "https://www.googleapis.com/auth/meetings.space.created",
    "https://www.googleapis.com/auth/meetings.space.readonly" ]

/-- The authorization URL `generateAuthUrl` builds: offline access, the
fixed scope set, forced consent, for the client and its redirect URI. -/
structure AuthUrl where
  clientId : String
  redirectUri : String
  accessType : String
  scope : List String
  prompt : String
deriving DecidableEq

/-- `generateAuthUrl({ access_type: "offline", scope: SCOPES,
prompt: "consent" })`. -/
def generateAuthUrlModel (c : ClientState) : AuthUrl :=
  ⟨c.clientId, c.redirectUri, "offline", SCOPES, "consent"⟩

/-- `getAuthUrl()`: absent without a client handle. -/
def getAuthUrl (st : GoogleOAuth) : Option AuthUrl :=
  st.oauth2Client.map generateAuthUrlModel

/-- `setAuthCode(code)`: initialize the client if absent; fail when still
absent; exchange the code, bind and persist the tokens and mark
authenticated, all inside try/catch (exchange or save failure returns
false). -/
def setAuthCodeBody (w : World) (env : Env) (beh : Behavior) (code : String)
    (st : GoogleOAuth) (fs : Fs) : OpResult Bool :=
  match st.oauth2Client with
  | none => Except.ok (false, st, fs)
  | some _ =>
    match beh.getToken code with
    | none => Except.ok (false, st, fs)
    | some toks =>
      let st1 := setClientCreds st toks
      match saveTokensOp w env beh toks st1 fs with
      | Except.error (_, stE, fsE) => Except.ok (false, stE, fsE)
      | Except.ok ((), st2, fs2) =>
        Except.ok (true, { st2 with isAuthenticated := true }, fs2)

/-- `setAuthCode(code)` (entry: runs `initialize()` first when no client
handle exists, ignoring its result). -/
def setAuthCode (w : World) (env : Env) (beh : Behavior) (now : Int)
    (code : String) (st : GoogleOAuth) (fs : Fs) : OpResult Bool :=
  match st.oauth2Client with
  | none =>
    match oauthInit w env beh now st fs with
    | Except.error e => Except.error e
    | Except.ok (_, st1, fs1) => setAuthCodeBody w env beh code st1 fs1
  | some _ => setAuthCodeBody w env beh code st fs

/-- `logout()`: deletes the token file when present — `fs.unlinkSync` is
not wrapped in try/catch, so its failure propagates — then clears the
authenticated flag; `revokeCredentials()` is fired and forgotten (a
floating promise with no state effect here). -/
def logout (w : World) (env : Env) (beh : Behavior)
    (st : GoogleOAuth) (fs : Fs) : OpResult Unit :=
  if (fs.lookupFile (tokenPath w env)).isSome then
    if beh.unlinkOk then
      Except.ok ((), { st with isAuthenticated := false },
        fs.removeFile (tokenPath w env))
    else Except.error (JsError.fsUnlink, st, fs)
  else Except.ok ((), { st with isAuthenticated := false }, fs)

/-- The ephemeral state of one interactive flow: the promise resolution
(first-wins), whether `server.close()` has been called, and the HTTP
status codes of the responses sent to the browser. -/
structure FlowState where
  resolved : Option Bool
  serverClosed : Bool
  responses : List Nat
deriving DecidableEq

/-- `resolve(b)` on the flow promise: only the first resolution takes
effect (JavaScript promise semantics). -/
def resolveFlow (fl : FlowState) (b : Bool) : FlowState :=
  if fl.resolved.isNone then { fl with resolved := some b } else fl

/-- `server.close()`. -/
def closeServer (fl : FlowState) : FlowState :=
  { fl with serverClosed := true }

/-- `res.writeHead(status); res.end(...)`. -/
def sendResponse (fl : FlowState) (status : Nat) : FlowState :=
  { fl with responses := fl.responses ++ [status] }

/-- The externally-triggered events of one interactive flow: an HTTP
request to the listener (with its URL path and optional `code` query
parameter), an asynchronous server error, and the 5-minute timeout
firing. -/
inductive AuthEvent where
  | request (path : String) (code : Option String) : AuthEvent
  | serverError : AuthEvent
  | timeout : AuthEvent
deriving DecidableEq

/-- One event of the interactive flow, as handled by the source:

* a request to a path other than `/oauth2callback` falls through the
  handler — no response, no close, no resolution, no state change;
* a callback with a truthy code: exchange it; on success bind and persist
  the tokens, mark authenticated, respond 200, close, resolve success; an
  exchange or save failure is caught — respond 500, close, resolve
  failure;
* a callback without a truthy code: respond 400, close, resolve failure;
* a server error: resolve failure (the handler does not close);
* the timeout: when not authenticated, close and resolve failure,
  otherwise do nothing. -/
def authStep (w : World) (env : Env) (beh : Behavior)
    (s : GoogleOAuth × Fs × FlowState) (ev : AuthEvent) :
    GoogleOAuth × Fs × FlowState :=
  let (st, fs, fl) := s
  match ev with
  | .request path code =>
    if path = "/oauth2callback" then
      match code with
      | some c =>
        if c != "" then
          match beh.getToken c with
          | some toks =>
            let st1 := setClientCreds st toks
            match saveTokensOp w env beh toks st1 fs with
            | Except.ok ((), st2, fs2) =>
              ({ st2 with isAuthenticated := true }, fs2,
                resolveFlow (closeServer (sendResponse fl 200)) true)
            | Except.error (_, stE, fsE) =>
              (stE, fsE, resolveFlow (closeServer (sendResponse fl 500)) false)
          | none =>
            (st, fs, resolveFlow (closeServer (sendResponse fl 500)) false)
        else (st, fs, resolveFlow (closeServer (sendResponse fl 400)) false)
      | none => (st, fs, resolveFlow (closeServer (sendResponse fl 400)) false)
    else (st, fs, fl)
  | .serverError => (st, fs, resolveFlow fl false)
  | .timeout =>
    if !st.isAuthenticated then (st, fs, resolveFlow (closeServer fl) false)
    else (st, fs, fl)

/-- The whole listener lifetime: the events processed in order by the
single-threaded event loop. -/
def authRun (w : World) (env : Env) (beh : Behavior)
    (st : GoogleOAuth) (fs : Fs) (trace : List AuthEvent) :
    GoogleOAuth × Fs × FlowState :=
  trace.foldl (authStep w env beh) (st, fs, ⟨none, false, []⟩)

/-- The per-attempt redirect URI `http://localhost:<port>/oauth2callback`. -/
def redirectUriFor (port : Nat) : String :=
  "http://localhost:" ++ toString port ++ "/oauth2callback"

/-- The body of `authenticate()` after the client/authenticated checks:
allocate a port (failure is caught and returns false); rebuild the client
against the per-attempt redirect URI when credentials with truthy
id/secret load; run the listener over the events; the promise value is the
flow resolution (absent while no event has resolved it). -/
def authAfterChecks (w : World) (env : Env) (beh : Behavior)
    (trace : List AuthEvent) (st : GoogleOAuth) (fs : Fs) :
    OpResult (Option Bool) :=
  if st.isAuthenticated then Except.ok (some true, st, fs)
  else
    match findAvailablePort beh.portAvail PORT_RANGE_START PORT_RANGE_END with
    | none => Except.ok (some false, st, fs)
    | some port =>
      let st1 :=
        match (loadCredentials w env fs).1 with
        | some cf =>
          match credIdSecret cf with
          | some (cid, csec) =>
            let c : ClientState := ⟨cid, csec, redirectUriFor port, none⟩
            { st with oauth2Client := some c }
          | none => st
        | none => st
      let (st2, fs2, fl) := authRun w env beh st1 fs trace
      Except.ok (fl.resolved, st2, fs2)

/-- `authenticate()`: initialize first when no client handle exists and
abort with false when there is still none; succeed immediately when
already authenticated; otherwise run the interactive flow. -/
def oauthAuthenticate (w : World) (env : Env) (beh : Behavior) (now : Int)
    (trace : List AuthEvent) (st : GoogleOAuth) (fs : Fs) :
    OpResult (Option Bool) :=
  match st.oauth2Client with
  | none =>
    match oauthInit w env beh now st fs with
    | Except.error e => Except.error e
    | Except.ok (b, st1, fs1) =>
      if !b && st1.oauth2Client.isNone then Except.ok (some false, st1, fs1)
      else authAfterChecks w env beh trace st1 fs1
  | some _ => authAfterChecks w env beh trace st fs

/-- `initializeWithAuth()`: initialize; report success when authenticated;
otherwise run `authenticate()` when a client handle exists, else report
failure. -/
def oauthInitWithAuth (w : World) (env : Env) (beh : Behavior) (now : Int)
    (trace : List AuthEvent) (st : GoogleOAuth) (fs : Fs) :
    OpResult (Option Bool) :=
  match oauthInit w env beh now st fs with
  | Except.error e => Except.error e
  | Except.ok (b, st1, fs1) =>
    if b && st1.isAuthenticated then Except.ok (some true, st1, fs1)
    else if st1.oauth2Client.isSome then
      oauthAuthenticate w env beh now trace st1 fs1
    else Except.ok (some false, st1, fs1)

/-- A Linux-like host with a fixed home directory. -/
def w0 : World := ⟨.other, "/home/user"⟩

/-- An environment with no variables set. -/
def envBase : Env := ⟨none, none, none, none, none⟩

/-- The session state of a freshly constructed `GoogleOAuth` (directory
creation failed or pending, no client, not authenticated). -/
def st0 : GoogleOAuth := ⟨none, false, false⟩

/-- An empty filesystem. -/
def fs0 : Fs := ⟨[], []⟩

/-- A benign behavior: refresh and exchange reject, filesystem primitives
succeed, every port probe fails. -/
def behBase : Behavior := ⟨none, fun _ => none, true, true, true, fun _ => false⟩

/-- A valid credentials file content: an `installed` block with truthy
client id and secret. -/
def credJson0 : Json :=
  .obj [("installed",
    .obj [("client_id", .str "id"),
          ("client_secret", .str "secret"),
          ("redirect_uris", .arr [.str "http://localhost:3000/oauth2callback"])])]

/-- The credentials file content as a parsed string. -/
def credsJs0 : JsStr := ⟨false, some credJson0⟩

/-- A stale token set: past expiry, refresh token present. -/
def stale0 : TokenSet := ⟨some "atk", some "rtk", some 100, none, none⟩

/-- An initial flow state: unresolved, listener open, no responses. -/
def fl0 : FlowState := ⟨none, false, []⟩

theorem resolveFlow_resolved_some {fl : FlowState} {b : Bool} (v : Bool)
    (h : fl.resolved = some b) : (resolveFlow fl v).resolved = some b := by
  simp [resolveFlow, h]

theorem resolveFlow_isSome (fl : FlowState) (v : Bool) :
    ((resolveFlow fl v).resolved).isSome = true := by
  unfold resolveFlow
  cases h : fl.resolved <;> simp [h]

theorem resolveFlow_serverClosed (fl : FlowState) (v : Bool) :
    (resolveFlow fl v).serverClosed = fl.serverClosed := by
  unfold resolveFlow
  cases h : fl.resolved <;> simp [h]

theorem authStep_resolved_stable (w : World) (env : Env) (beh : Behavior)
    (s : GoogleOAuth × Fs × FlowState) (ev : AuthEvent) (b : Bool)
    (h : s.2.2.resolved = some b) :
    (authStep w env beh s ev).2.2.resolved = some b := by
  obtain ⟨st, fs, fl⟩ := s
  simp only at h
  cases ev with
  | request path code =>
    simp only [authStep]
    split
    · cases code with
      | none => exact resolveFlow_resolved_some _ h
      | some c =>
        simp only
        split
        · cases hg : beh.getToken c with
          | some toks =>
            simp only
            cases hs : saveTokensOp w env beh toks (setClientCreds st toks) fs with
            | ok r =>
              obtain ⟨u, st2, fs2⟩ := r
              exact resolveFlow_resolved_some _ h
            | error e =>
              obtain ⟨je, stE, fsE⟩ := e
              exact resolveFlow_resolved_some _ h
          | none => exact resolveFlow_resolved_some _ h
        · exact resolveFlow_resolved_some _ h
    · exact h
  | serverError => exact resolveFlow_resolved_some _ h
  | timeout =>
    simp only [authStep]
    split
    · exact resolveFlow_resolved_some _ h
    · exact h

/-- The inductive invariant of one flow: once the session is marked
authenticated, the promise has been resolved. -/
def flowInv (s : GoogleOAuth × Fs × FlowState) : Prop :=
  s.1.isAuthenticated = true → (s.2.2.resolved).isSome = true

theorem authStep_flowInv (w : World) (env : Env) (beh : Behavior)
    (s : GoogleOAuth × Fs × FlowState) (ev : AuthEvent)
    (h : flowInv s) : flowInv (authStep w env beh s ev) := by
  obtain ⟨st, fs, fl⟩ := s
  cases ev with
  | request path code =>
    simp only [authStep]
    split
    · cases code with
      | none => exact fun _ => resolveFlow_isSome _ _
      | some c =>
        simp only
        split
        · cases hg : beh.getToken c with
          | some toks =>
            simp only
            cases hs : saveTokensOp w env beh toks (setClientCreds st toks) fs with
            | ok r =>
              obtain ⟨u, st2, fs2⟩ := r
              exact fun _ => resolveFlow_isSome _ _
            | error e =>
              obtain ⟨je, stE, fsE⟩ := e
              exact fun _ => resolveFlow_isSome _ _
          | none => exact fun _ => resolveFlow_isSome _ _
        · exact fun _ => resolveFlow_isSome _ _
    · exact h
  | serverError => exact fun ha => resolveFlow_isSome _ _
  | timeout =>
    simp only [authStep]
    split
    · exact fun _ => resolveFlow_isSome _ _
    · exact h

theorem foldl_flowInv (w : World) (env : Env) (beh : Behavior)
    (trace : List AuthEvent) (s : GoogleOAuth × Fs × FlowState)
    (h : flowInv s) : flowInv (trace.foldl (authStep w env beh) s) := by
  induction trace generalizing s with
  | nil => exact h
  | cons ev rest ih => exact ih _ (authStep_flowInv w env beh s ev h)

theorem authRun_flowInv (w : World) (env : Env) (beh : Behavior)
    (st : GoogleOAuth) (fs : Fs) (trace : List AuthEvent)
    (h : st.isAuthenticated = false) :
    flowInv (authRun w env beh st fs trace) := by
  unfold authRun
  exact foldl_flowInv w env beh trace _ (fun ha => by simp [h] at ha)

theorem authStep_close_at_resolution (w : World) (env : Env) (beh : Behavior)
    (s : GoogleOAuth × Fs × FlowState) (ev : AuthEvent)
    (h0 : s.2.2.resolved = none) (hev : ev ≠ AuthEvent.serverError)
    (h1 : ((authStep w env beh s ev).2.2.resolved).isSome = true) :
    (authStep w env beh s ev).2.2.serverClosed = true := by
  obtain ⟨st, fs, fl⟩ := s
  simp only at h0
  cases ev with
  | request path code =>
    simp only [authStep] at h1 ⊢
    split at h1
    · rename_i hpath
      simp only [hpath, if_true]
      cases code with
      | none => simp [resolveFlow_serverClosed, closeServer, sendResponse]
      | some c =>
        simp only at h1 ⊢
        split at h1 <;> rename_i hc
        · cases hg : beh.getToken c with
          | some toks =>
            simp only [hg] at h1 ⊢
            cases hs : saveTokensOp w env beh toks (setClientCreds st toks) fs with
            | ok r =>
              obtain ⟨u, st2, fs2⟩ := r
              simp only [hs]
              split <;> simp [resolveFlow_serverClosed, closeServer, sendResponse]
            | error e =>
              obtain ⟨je, stE, fsE⟩ := e
              simp only [hs]
              split <;> simp [resolveFlow_serverClosed, closeServer, sendResponse]
          | none =>
            simp [hg, hc, resolveFlow_serverClosed, closeServer, sendResponse]
        · simp [hc, resolveFlow_serverClosed, closeServer, sendResponse]
    · rename_i hpath
      rw [h0] at h1
      cases h1
  | serverError => exact absurd rfl hev
  | timeout =>
    simp only [authStep] at h1 ⊢
    split at h1
    · rename_i hauth
      simp only [hauth, if_true]
      simp [resolveFlow_serverClosed, closeServer]
    · rename_i hauth
      rw [h0] at h1
      cases h1

theorem authStep_timeout_closes (w : World) (env : Env) (beh : Behavior)
    (st : GoogleOAuth) (fs : Fs) (fl : FlowState)
    (h : st.isAuthenticated = false) :
    (authStep w env beh (st, fs, fl) AuthEvent.timeout).2.2.serverClosed = true := by
  simp [authStep, h, resolveFlow_serverClosed, closeServer]

theorem authStep_timeout_resolves (w : World) (env : Env) (beh : Behavior)
    (s : GoogleOAuth × Fs × FlowState) (h : flowInv s) :
    ((authStep w env beh s AuthEvent.timeout).2.2.resolved).isSome = true := by
  obtain ⟨st, fs, fl⟩ := s
  simp only [authStep]
  split
  · exact resolveFlow_isSome _ _
  · rename_i hauth
    simp only [Bool.not_eq_true', Bool.not_eq_false] at hauth
    exact h hauth

/-- C1 (amended): in the interactive `authenticate()` flow, (1) resolution
is first-wins and stable, so at most one of {success, failure, timeout}
determines the result, (2) a trace in which the 5-minute timeout fires is
always resolved by its end, so exactly one outcome resolves every complete
flow, (3) on every resolution path other than the asynchronous
listener-error event — callback with code, callback without code, exchange
or persistence error, timeout — the listener is closed at the resolving
step, and (4) after a listener-error resolution the still-pending timeout
closes the listener. The original claim fails only in that the
listener-error handler resolves without closing
(`c1_counterexample`). -/
theorem c1_flow_resolution :
    (∀ (w : World) (env : Env) (beh : Behavior)
        (s : GoogleOAuth × Fs × FlowState) (ev : AuthEvent) (b : Bool),
      s.2.2.resolved = some b →
        (authStep w env beh s ev).2.2.resolved = some b) ∧
    (∀ (w : World) (env : Env) (beh : Behavior) (st : GoogleOAuth) (fs : Fs)
        (trace : List AuthEvent),
      st.isAuthenticated = false →
        ((authRun w env beh st fs
            (trace ++ [AuthEvent.timeout])).2.2.resolved).isSome = true) ∧
    (∀ (w : World) (env : Env) (beh : Behavior)
        (s : GoogleOAuth × Fs × FlowState) (ev : AuthEvent),
      s.2.2.resolved = none → ev ≠ AuthEvent.serverError →
        ((authStep w env beh s ev).2.2.resolved).isSome = true →
        (authStep w env beh s ev).2.2.serverClosed = true) ∧
    (∀ (w : World) (env : Env) (beh : Behavior) (st : GoogleOAuth) (fs : Fs)
        (fl : FlowState),
      st.isAuthenticated = false →
        (authStep w env beh (st, fs, fl) AuthEvent.timeout).2.2.serverClosed = true) := by
  refine ⟨authStep_resolved_stable, ?_, authStep_close_at_resolution, authStep_timeout_closes⟩
  intro w env beh st fs trace h
  unfold authRun
  rw [List.foldl_append]
  simp only [List.foldl_cons, List.foldl_nil]
  exact authStep_timeout_resolves w env beh _ (authRun_flowInv w env beh st fs trace h)

/-- C1 is refuted as stated: from an unresolved flow with the listener
open, the asynchronous listener-error event resolves the flow (failure)
while leaving the listener unclosed — the `server.on("error")` handler
calls `resolve(false)` without `server.close()`. -/
theorem c1_counterexample :
    (authStep w0 envBase behBase (st0, fs0, fl0)
        AuthEvent.serverError).2.2.resolved = some false ∧
    (authStep w0 envBase behBase (st0, fs0, fl0)
        AuthEvent.serverError).2.2.serverClosed = false ∧
    fl0.resolved = none ∧ fl0.serverClosed = false :=
  ⟨rfl, rfl, rfl, rfl⟩

/-- Witness for C1: at a concrete unauthenticated start state, a trace
ending in the timeout is resolved, and the timeout step closes the
listener. -/
theorem c1_witness :
    ((authRun w0 envBase behBase st0 fs0
        ([] ++ [AuthEvent.timeout])).2.2.resolved).isSome = true ∧
    (authStep w0 envBase behBase (st0, fs0, fl0)
        AuthEvent.timeout).2.2.serverClosed = true :=
  ⟨c1_flow_resolution.2.1 w0 envBase behBase st0 fs0 [] rfl,
   c1_flow_resolution.2.2.2 w0 envBase behBase st0 fs0 fl0 rfl⟩

/-- C10: during the interactive flow, a request whose URL path is not
`/oauth2callback` falls through the handler entirely: the whole state —
session, filesystem, responses sent, listener, resolution — is
unchanged. -/
theorem c10_non_callback_request (w : World) (env : Env) (beh : Behavior)
    (st : GoogleOAuth) (fs : Fs) (fl : FlowState) (path : String)
    (code : Option String) (h : path ≠ "/oauth2callback") :
    authStep w env beh (st, fs, fl) (AuthEvent.request path code) = (st, fs, fl) := by
  simp [authStep, h]

/-- Witness for C10: a concrete request to `/favicon.ico` leaves the
concrete flow state untouched. -/
theorem c10_non_callback_request_witness :
    authStep w0 envBase behBase (st0, fs0, fl0)
      (AuthEvent.request "/favicon.ico" (some "x")) = (st0, fs0, fl0) :=
  c10_non_callback_request w0 envBase behBase st0 fs0 fl0 "/favicon.ico"
    (some "x") (by decide)

/-- The operation value is an `ok` (Boolean check used by the totality
lemmas). -/
def isOkB {α : Type} : OpResult α → Bool
  | Except.ok _ => true
  | Except.error _ => false

theorem isOkB_opOk {α : Type} {r : OpResult α} (h : isOkB r = true) : opOk r := by
  match r with
  | Except.ok (v, st, fs) => exact ⟨v, st, fs, rfl⟩
  | Except.error e => simp [isOkB] at h

theorem oauthInit_isOk (w : World) (env : Env) (beh : Behavior) (now : Int)
    (st : GoogleOAuth) (fs : Fs) :
    isOkB (oauthInit w env beh now st fs) = true := by
  unfold oauthInit
  repeat' split
  all_goals try rfl
  all_goals dsimp only
  all_goals repeat' split
  all_goals rfl

theorem authAfterChecks_isOk (w : World) (env : Env) (beh : Behavior)
    (trace : List AuthEvent) (st : GoogleOAuth) (fs : Fs) :
    isOkB (authAfterChecks w env beh trace st fs) = true := by
  unfold authAfterChecks
  repeat' split
  all_goals rfl

theorem oauthAuthenticate_isOk (w : World) (env : Env) (beh : Behavior)
    (now : Int) (trace : List AuthEvent) (st : GoogleOAuth) (fs : Fs) :
    isOkB (oauthAuthenticate w env beh now trace st fs) = true := by
  unfold oauthAuthenticate
  split
  · cases hr : oauthInit w env beh now st fs with
    | error e =>
      have h2 := oauthInit_isOk w env beh now st fs
      rw [hr] at h2
      cases h2
    | ok t =>
      obtain ⟨b, st1, fs1⟩ := t
      simp only [hr]
      split
      · rfl
      · exact authAfterChecks_isOk w env beh trace st1 fs1
  · exact authAfterChecks_isOk w env beh trace st fs

theorem setAuthCodeBody_isOk (w : World) (env : Env) (beh : Behavior)
    (code : String) (st : GoogleOAuth) (fs : Fs) :
    isOkB (setAuthCodeBody w env beh code st fs) = true := by
  unfold setAuthCodeBody
  repeat' split
  all_goals try rfl
  all_goals dsimp only
  all_goals repeat' split
  all_goals rfl

theorem setAuthCode_isOk (w : World) (env : Env) (beh : Behavior) (now : Int)
    (code : String) (st : GoogleOAuth) (fs : Fs) :
    isOkB (setAuthCode w env beh now code st fs) = true := by
  unfold setAuthCode
  split
  · cases hr : oauthInit w env beh now st fs with
    | error e =>
      have h2 := oauthInit_isOk w env beh now st fs
      rw [hr] at h2
      cases h2
    | ok t =>
      obtain ⟨b, st1, fs1⟩ := t
      simp only [hr]
      exact setAuthCodeBody_isOk w env beh code st1 fs1
  · exact setAuthCodeBody_isOk w env beh code st fs

theorem oauthInitWithAuth_isOk (w : World) (env : Env) (beh : Behavior)
    (now : Int) (trace : List AuthEvent) (st : GoogleOAuth) (fs : Fs) :
    isOkB (oauthInitWithAuth w env beh now trace st fs) = true := by
  unfold oauthInitWithAuth
  cases hr : oauthInit w env beh now st fs with
  | error e =>
    have h2 := oauthInit_isOk w env beh now st fs
    rw [hr] at h2
    cases h2
  | ok t =>
    obtain ⟨b, st1, fs1⟩ := t
    simp only [hr]
    split
    · rfl
    · split
      · exact oauthAuthenticate_isOk w env beh now trace st1 fs1
      · rfl

/-- C2 (amended): every public operation of the session manager except
`logout` catches its I/O and provider errors and returns a plain
boolean/absent-valued result — `initialize`, `initializeWithAuth`,
`authenticate` and `setAuthCode` never propagate an exception, for every
environment, behavior (including failing writes, failing directory
creation, rejecting refresh and exchange calls) and state; `isReady`,
`getClient` and `getAuthUrl` are pure total functions. `logout` is the
exception: its token-file deletion is not guarded, so a filesystem error
there propagates to the caller (`c2_counterexample`). -/
theorem c2_public_operations_no_exception :
    (∀ (w : World) (env : Env) (beh : Behavior) (now : Int)
        (st : GoogleOAuth) (fs : Fs), opOk (oauthInit w env beh now st fs)) ∧
    (∀ (w : World) (env : Env) (beh : Behavior) (now : Int)
        (trace : List AuthEvent) (st : GoogleOAuth) (fs : Fs),
      opOk (oauthInitWithAuth w env beh now trace st fs)) ∧
    (∀ (w : World) (env : Env) (beh : Behavior) (now : Int)
        (trace : List AuthEvent) (st : GoogleOAuth) (fs : Fs),
      opOk (oauthAuthenticate w env beh now trace st fs)) ∧
    (∀ (w : World) (env : Env) (beh : Behavior) (now : Int) (code : String)
        (st : GoogleOAuth) (fs : Fs),
      opOk (setAuthCode w env beh now code st fs)) :=
  ⟨fun w env beh now st fs => isOkB_opOk (oauthInit_isOk w env beh now st fs),
   fun w env beh now trace st fs =>
     isOkB_opOk (oauthInitWithAuth_isOk w env beh now trace st fs),
   fun w env beh now trace st fs =>
     isOkB_opOk (oauthAuthenticate_isOk w env beh now trace st fs),
   fun w env beh now code st fs =>
     isOkB_opOk (setAuthCode_isOk w env beh now code st fs)⟩

/-- A token set fixture for the logout counterexample. -/
def tok0 : TokenSet := ⟨some "atk", some "rtk", some 100, none, none⟩

/-- A filesystem holding a token file at the resolved token path. -/
def fsWithToken : Fs := ⟨[], [(tokenPath w0 envBase, serializeTokens tok0, 0o600)]⟩

/-- A behavior where `fs.unlinkSync` throws (e.g. permission denied). -/
def behNoUnlink : Behavior := ⟨none, fun _ => none, true, true, false, fun _ => false⟩

/-- C2 is refuted as stated: when the token file exists and
`fs.unlinkSync` fails, `logout()` propagates the exception to its caller
(the deletion is not wrapped in try/catch). -/
theorem c2_counterexample :
    logout w0 envBase behNoUnlink st0 fsWithToken =
      Except.error (JsError.fsUnlink, st0, fsWithToken) := rfl

/-- C3 (amended): for every stored token set whose (truthy) expiry is in
the past, when the refresh attempt fails, `initialize()` returns a
non-authenticated result, the session flag is cleared so `isReady()` is
false, and the filesystem — in particular the on-disk token file — is left
unchanged. The stale token set, however, remains bound to the client
handle (`setCredentials` is called before the refresh and nothing clears
it); only the session flag marks it invalid (`c3_counterexample` refutes
the stronger discarded-from-memory reading). -/
theorem c3_failed_refresh (w : World) (env : Env) (beh : Behavior) (now : Int)
    (st : GoogleOAuth) (fs : Fs) (cf : CredentialsFile) (cid csec : String)
    (toks : TokenSet) (e : Int)
    (hcred : (loadCredentials w env fs).1 = some cf)
    (hid : credIdSecret cf = some (cid, csec))
    (htok : (loadTokens w env fs).1 = some toks)
    (hexp : toks.expiry_date = some e) (he0 : e ≠ 0) (helt : e < now)
    (href : refreshOutcome beh toks = none) :
    ∃ st', oauthInit w env beh now st fs = Except.ok (false, st', fs) ∧
      st'.isAuthenticated = false ∧ isReady st' = false ∧
      st'.oauth2Client = some ⟨cid, csec,
        firstRedirectUri ((pickBlock cf).bind fun b => b.redirect_uris),
        some toks⟩ := by
  have hguard : expiryNeedsRefresh toks.expiry_date now = true := by
    rw [hexp]
    simp only [expiryNeedsRefresh, Bool.and_eq_true, bne_iff_ne, decide_eq_true_eq]
    exact ⟨he0, helt⟩
  unfold oauthInit
  simp only [hcred, hid, htok, hguard, href, if_true]
  exact ⟨_, rfl, rfl, rfl, rfl⟩

/-- The token file content of the stale-token fixture. -/
def staleJs : JsStr := ⟨false, some (tokensToJson stale0)⟩

/-- Environment supplying valid credentials and the stale token set. -/
def envC3 : Env := ⟨some credsJs0, some staleJs, none, none, none⟩

/-- C3 is refuted as stated on the discarded-tokens conjunct: after a
failing refresh of a stale token set, `initialize()` does return
non-authenticated, but the stale tokens are still bound to the client
handle (credentials are not cleared to absent). -/
theorem c3_counterexample :
    (∃ st', oauthInit w0 envC3 behBase 1000 st0 fs0 = Except.ok (false, st', fs0) ∧
      st'.isAuthenticated = false ∧
      st'.oauth2Client =
        some ⟨"id", "secret", "http://localhost:3000/oauth2callback", some stale0⟩) ∧
    ¬ (∀ st', oauthInit w0 envC3 behBase 1000 st0 fs0 = Except.ok (false, st', fs0) →
        ∀ c, st'.oauth2Client = some c → c.credentials = none) := by
  constructor
  · exact ⟨_, rfl, rfl, rfl⟩
  · intro h
    have h2 := h _ rfl _ rfl
    exact Option.noConfusion h2

/-- Witness for C3: the amended theorem applied to the concrete
stale-token environment. -/
theorem c3_witness :
    ∃ st', oauthInit w0 envC3 behBase 1000 st0 fs0 = Except.ok (false, st', fs0) ∧
      st'.isAuthenticated = false ∧ isReady st' = false ∧
      st'.oauth2Client = some ⟨"id", "secret",
        firstRedirectUri
          ((pickBlock (jsonToCreds credJson0)).bind fun b => b.redirect_uris),
        some stale0⟩ :=
  c3_failed_refresh w0 envC3 behBase 1000 st0 fs0 (jsonToCreds credJson0)
    "id" "secret" stale0 100 rfl rfl rfl rfl (by decide) (by decide) rfl

/-- C4 (amended): for every loaded token set whose expiry is a truthy
(non-zero) past timestamp and whose refresh token is absent or empty,
`initialize()` never reports authenticated and clears the authenticated
flag — for every provider behavior, since the refresh call always throws
without a refresh token. The restriction to non-zero expiry is forced by
the JavaScript truthiness guard `tokens.expiry_date && ...`: a token set
whose expiry is exactly 0 (epoch, in the past) skips the refresh check
entirely and is accepted as authenticated (`c4_counterexample`). -/
theorem c4_no_silent_renewal (w : World) (env : Env) (beh : Behavior) (now : Int)
    (st : GoogleOAuth) (fs : Fs) (cf : CredentialsFile) (cid csec : String)
    (toks : TokenSet) (e : Int)
    (hcred : (loadCredentials w env fs).1 = some cf)
    (hid : credIdSecret cf = some (cid, csec))
    (htok : (loadTokens w env fs).1 = some toks)
    (hexp : toks.expiry_date = some e) (he0 : e ≠ 0) (helt : e < now)
    (hrt : optTruthy toks.refresh_token = false) :
    ∃ st', oauthInit w env beh now st fs = Except.ok (false, st', fs) ∧
      st'.isAuthenticated = false := by
  have href : refreshOutcome beh toks = none := by
    simp [refreshOutcome, hrt]
  have hguard : expiryNeedsRefresh toks.expiry_date now = true := by
    rw [hexp]
    simp only [expiryNeedsRefresh, Bool.and_eq_true, bne_iff_ne, decide_eq_true_eq]
    exact ⟨he0, helt⟩
  unfold oauthInit
  simp only [hcred, hid, htok, hguard, href, if_true]
  exact ⟨_, rfl, rfl⟩

/-- A token set with expiry exactly 0 (the epoch, in the past) and no
refresh token. -/
def tokE0 : TokenSet := ⟨some "atk", none, some 0, none, none⟩

/-- The token file content of the zero-expiry fixture. -/
def tokE0Js : JsStr := ⟨false, some (tokensToJson tokE0)⟩

/-- Environment supplying valid credentials and the zero-expiry token
set. -/
def envC4 : Env := ⟨some credsJs0, some tokE0Js, none, none, none⟩

/-- C4 is refuted as stated: a token set expired at epoch 0 with no
refresh token is accepted — `initialize()` returns authenticated, because
the JavaScript guard `tokens.expiry_date && tokens.expiry_date < Date.now()`
treats the number 0 as absent. -/
theorem c4_counterexample :
    (∃ st', oauthInit w0 envC4 behBase 1000 st0 fs0 = Except.ok (true, st', fs0) ∧
      st'.isAuthenticated = true) ∧
    tokE0.refresh_token = none ∧ tokE0.expiry_date = some 0 ∧ (0 : Int) < 1000 :=
  ⟨⟨_, rfl, rfl⟩, rfl, rfl, by decide⟩

/-- An expired token set (non-zero past expiry) without a refresh token. -/
def tokNR : TokenSet := ⟨some "atk", none, some 100, none, none⟩

/-- The token file content of the no-refresh-token fixture. -/
def tokNRJs : JsStr := ⟨false, some (tokensToJson tokNR)⟩

/-- Environment supplying valid credentials and the no-refresh-token
expired token set. -/
def envC4w : Env := ⟨some credsJs0, some tokNRJs, none, none, none⟩

/-- Witness for C4: the amended theorem at the concrete expired,
refresh-token-less token set. -/
theorem c4_witness :
    ∃ st', oauthInit w0 envC4w behBase 1000 st0 fs0 = Except.ok (false, st', fs0) ∧
      st'.isAuthenticated = false :=
  c4_no_silent_renewal w0 envC4w behBase 1000 st0 fs0 (jsonToCreds credJson0)
    "id" "secret" tokNR 100 rfl rfl rfl rfl (by decide) (by decide) rfl


theorem lookupDir_mkdir (fs : Fs) (q : FilePath') (m : Nat) (p : FilePath') :
    (fs.mkdir q m).lookupDir p =
      if (q == p) = true then some m else fs.lookupDir p := by
  by_cases h : (q == p) = true
  · rw [if_pos h]
    simp [Fs.mkdir, Fs.lookupDir, List.find?, h]
  · rw [if_neg h]
    have h' : (q == p) = false := by
      cases hb : (q == p)
      · rfl
      · exact absurd hb h
    simp [Fs.mkdir, Fs.lookupDir, List.find?, h']

theorem lookupDir_writeFile (fs : Fs) (p : FilePath') (c : JsStr) (m : Nat)
    (q : FilePath') : (fs.writeFile p c m).lookupDir q = fs.lookupDir q := rfl

theorem lookupFile_mkdir (fs : Fs) (q : FilePath') (m : Nat) (p : FilePath') :
    (fs.mkdir q m).lookupFile p = fs.lookupFile p := rfl

theorem lookupFile_writeFile (fs : Fs) (p : FilePath') (c : JsStr) (m : Nat) :
    (fs.writeFile p c m).lookupFile p = some (c, m) := by
  simp [Fs.writeFile, Fs.lookupFile, List.find?]

theorem dirExists_mkdir_self (fs : Fs) (p : FilePath') (m : Nat) :
    (fs.mkdir p m).dirExists p = true := by
  unfold Fs.dirExists
  rw [lookupDir_mkdir, if_pos (beq_self_eq_true p)]
  rfl

theorem dirExists_mkdir_mono (fs : Fs) (q : FilePath') (m : Nat) (p : FilePath')
    (h : fs.dirExists p = true) : (fs.mkdir q m).dirExists p = true := by
  unfold Fs.dirExists at h ⊢
  rw [lookupDir_mkdir]
  split
  · rfl
  · exact h

theorem lookupDir_eq_none_of_not_exists {fs : Fs} {p : FilePath'}
    (h : fs.dirExists p = false) : fs.lookupDir p = none := by
  unfold Fs.dirExists at h
  cases hl : fs.lookupDir p with
  | none => rfl
  | some m => rw [hl] at h; cases h

theorem tokenPath_dropLast (w : World) (env : Env) :
    (tokenPath w env).dropLast = getDataDir w env := by
  unfold tokenPath
  rw [List.dropLast_concat]

/-- The directory invariant behind the in-process
`directoriesInitialized` flag: when set, both resolved directories exist
(true in every run in which the flag was set by a successful
`ensureDirectoriesExist` and no external deletion occurred). -/
def dirInvariant (w : World) (env : Env) (st : GoogleOAuth) (fs : Fs) : Prop :=
  st.directoriesInitialized = true →
    fs.dirExists (getConfigDir w env) = true ∧
    fs.dirExists (getDataDir w env) = true

theorem ensureDirs_spec (w : World) (env : Env) (beh : Behavior)
    (st : GoogleOAuth) (fs : Fs)
    (hmk : beh.mkdirOk = true) (hinv : dirInvariant w env st fs) :
    ((ensureDirectoriesExist w env beh st fs).2.dirExists (getConfigDir w env) = true) ∧
    ((ensureDirectoriesExist w env beh st fs).2.dirExists (getDataDir w env) = true) ∧
    ((ensureDirectoriesExist w env beh st fs).2.files = fs.files) ∧
    (fs.dirExists (getDataDir w env) = false →
      (ensureDirectoriesExist w env beh st fs).2.lookupDir (getDataDir w env) =
        some 0o700) := by
  have hbail : ∀ b : Bool, ¬((!b && !beh.mkdirOk) = true) := by
    intro b
    rw [hmk]
    simp
  unfold ensureDirectoriesExist
  by_cases hflag : st.directoriesInitialized = true
  · rw [if_pos hflag]
    obtain ⟨hc, hd⟩ := hinv hflag
    refine ⟨hc, hd, rfl, fun hcontra => ?_⟩
    rw [hd] at hcontra
    cases hcontra
  · rw [if_neg hflag, if_neg (hbail _)]
    by_cases hcfg : fs.dirExists (getConfigDir w env) = true
    · rw [if_pos hcfg]
      dsimp only
      rw [if_neg (hbail _)]
      by_cases hdat : fs.dirExists (getDataDir w env) = true
      · rw [if_pos hdat]
        refine ⟨hcfg, hdat, rfl, fun hcontra => ?_⟩
        rw [hdat] at hcontra
        cases hcontra
      · rw [if_neg hdat]
        refine ⟨dirExists_mkdir_mono _ _ _ _ hcfg, dirExists_mkdir_self _ _ _, rfl,
          fun _ => ?_⟩
        rw [lookupDir_mkdir, if_pos (beq_self_eq_true _)]
    · rw [if_neg hcfg]
      dsimp only
      rw [if_neg (hbail _)]
      by_cases hdat1 : (fs.mkdir (getConfigDir w env) 0o700).dirExists
          (getDataDir w env) = true
      · rw [if_pos hdat1]
        refine ⟨dirExists_mkdir_self _ _ _, hdat1, rfl, fun hmiss => ?_⟩
        have hnone : fs.lookupDir (getDataDir w env) = none :=
          lookupDir_eq_none_of_not_exists hmiss
        unfold Fs.dirExists at hdat1
        rw [lookupDir_mkdir] at hdat1 ⊢
        by_cases hq : (getConfigDir w env == getDataDir w env) = true
        · rw [if_pos hq]
        · rw [if_neg hq] at hdat1
          rw [hnone] at hdat1
          cases hdat1
      · rw [if_neg hdat1]
        refine ⟨dirExists_mkdir_mono _ _ _ _ (dirExists_mkdir_self _ _ _),
          dirExists_mkdir_self _ _ _, rfl, fun _ => ?_⟩
        rw [lookupDir_mkdir, if_pos (beq_self_eq_true _)]

theorem saveTokensOp_write_spec (w : World) (env : Env) (beh : Behavior)
    (tokens : TokenSet) (st : GoogleOAuth) (fs : Fs)
    (henv : jsEnvTruthy env.googleTokensJson = false)
    (hw : beh.writeOk = true) (hmk : beh.mkdirOk = true)
    (hinv : dirInvariant w env st fs) :
    ∃ st' fs', saveTokensOp w env beh tokens st fs = Except.ok ((), st', fs') ∧
      fs'.lookupFile (tokenPath w env) = some (serializeTokens tokens, 0o600) ∧
      fs'.dirExists (getDataDir w env) = true ∧
      (fs.dirExists (getDataDir w env) = false →
        fs'.lookupDir (getDataDir w env) = some 0o700) := by
  obtain ⟨hc, hd, hfiles, hmode⟩ := ensureDirs_spec w env beh st fs hmk hinv
  have henv' : ¬(jsEnvTruthy env.googleTokensJson = true) := by
    rw [henv]
    simp
  unfold saveTokensOp
  rw [if_neg henv']
  rcases hE : ensureDirectoriesExist w env beh st fs with ⟨st1, fs1⟩
  rw [hE] at hc hd hmode
  dsimp only at hc hd hmode ⊢
  have hguard : (beh.writeOk && fs1.dirExists (tokenPath w env).dropLast) = true := by
    rw [hw, tokenPath_dropLast, hd]
    rfl
  rw [if_pos hguard]
  refine ⟨st1, _, rfl, lookupFile_writeFile _ _ _ _, ?_, ?_⟩
  · unfold Fs.dirExists
    rw [lookupDir_writeFile]
    exact hd
  · intro hmiss
    rw [lookupDir_writeFile]
    exact hmode hmiss

/-- C6: `saveTokens` frame and effect — when `GOOGLE_TOKENS_JSON` is set
(truthy), the call performs no filesystem change at all (session and
filesystem returned unchanged); when it is not set (and the filesystem
primitives succeed, with the directory flag honest), the call ensures the
data directory exists — creating it with mode 0700 when it was missing —
and writes the token file with mode 0600. -/
theorem c6_save_tokens (w : World) (env : Env) (beh : Behavior)
    (tokens : TokenSet) (st : GoogleOAuth) (fs : Fs) :
    (jsEnvTruthy env.googleTokensJson = true →
      saveTokensOp w env beh tokens st fs = Except.ok ((), st, fs)) ∧
    (jsEnvTruthy env.googleTokensJson = false → beh.writeOk = true →
      beh.mkdirOk = true → dirInvariant w env st fs →
      ∃ st' fs', saveTokensOp w env beh tokens st fs = Except.ok ((), st', fs') ∧
        fs'.lookupFile (tokenPath w env) = some (serializeTokens tokens, 0o600) ∧
        fs'.dirExists (getDataDir w env) = true ∧
        (fs.dirExists (getDataDir w env) = false →
          fs'.lookupDir (getDataDir w env) = some 0o700)) := by
  constructor
  · intro h
    unfold saveTokensOp
    rw [if_pos h]
  · intro h1 h2 h3 h4
    exact saveTokensOp_write_spec w env beh tokens st fs h1 h2 h3 h4

/-- The token-set content of a set `GOOGLE_TOKENS_JSON` variable. -/
def nullJs : JsStr := ⟨false, some Json.null⟩

/-- Environment with the token override variable set. -/
def envTokSet : Env := ⟨none, some nullJs, none, none, none⟩

/-- Witness for C6: with the override set, a concrete save leaves the
empty filesystem untouched; without it, the concrete save creates the
data directory (mode 0700) and the token file (mode 0600). -/
theorem c6_save_tokens_witness :
    (saveTokensOp w0 envTokSet behBase tok0 st0 fs0 = Except.ok ((), st0, fs0)) ∧
    (∃ st' fs', saveTokensOp w0 envBase behBase tok0 st0 fs0 = Except.ok ((), st', fs') ∧
      fs'.lookupFile (tokenPath w0 envBase) = some (serializeTokens tok0, 0o600) ∧
      fs'.dirExists (getDataDir w0 envBase) = true ∧
      (fs0.dirExists (getDataDir w0 envBase) = false →
        fs'.lookupDir (getDataDir w0 envBase) = some 0o700)) :=
  ⟨(c6_save_tokens w0 envTokSet behBase tok0 st0 fs0).1 rfl,
   (c6_save_tokens w0 envBase behBase tok0 st0 fs0).2 rfl rfl rfl
     (by intro h; exact absurd h (by decide))⟩

/-- C7: with no environment override (and working filesystem primitives,
honest directory flag), `saveTokens` followed by `loadTokens` returns
exactly the saved token set — the file-backed round trip is the identity,
via `JSON.parse` inverting `JSON.stringify` on the token object. -/
theorem c7_save_load_round_trip (w : World) (env : Env) (beh : Behavior)
    (tokens : TokenSet) (st : GoogleOAuth) (fs : Fs)
    (henv : jsEnvTruthy env.googleTokensJson = false)
    (hw : beh.writeOk = true) (hmk : beh.mkdirOk = true)
    (hinv : dirInvariant w env st fs) :
    ∃ st' fs', saveTokensOp w env beh tokens st fs = Except.ok ((), st', fs') ∧
      (loadTokens w env fs').1 = some tokens := by
  obtain ⟨st', fs', hsave, hfile, _, _⟩ :=
    saveTokensOp_write_spec w env beh tokens st fs henv hw hmk hinv
  refine ⟨st', fs', hsave, ?_⟩
  unfold loadTokens
  cases hjs : env.googleTokensJson with
  | none =>
    simp only [hfile, serializeTokens]
    exact congrArg some (jsonToTokens_tokensToJson tokens)
  | some js =>
    have hje : js.isEmpty = true := by
      rw [hjs] at henv
      simpa [jsEnvTruthy] using henv
    simp only [hje, Bool.not_true, Bool.false_eq_true, if_false, hfile, serializeTokens]
    exact congrArg some (jsonToTokens_tokensToJson tokens)

/-- Witness for C7: the round trip at a concrete token set on the empty
filesystem. -/
theorem c7_save_load_round_trip_witness :
    ∃ st' fs', saveTokensOp w0 envBase behBase tok0 st0 fs0 = Except.ok ((), st', fs') ∧
      (loadTokens w0 envBase fs').1 = some tok0 :=
  c7_save_load_round_trip w0 envBase behBase tok0 st0 fs0 rfl rfl rfl
    (by intro h; exact absurd h (by decide))

/-- C9 (amended): when `GOOGLE_CREDENTIALS_JSON` (respectively
`GOOGLE_TOKENS_JSON`) is set to a *non-empty* string holding malformed
JSON, `loadCredentials` (respectively `loadTokens`) returns absent without
reading the file-based source, for every filesystem — including one
holding a valid file at the resolved path. The restriction to non-empty
values is forced by JavaScript truthiness: an empty environment variable
is set but falsy, so the code falls through to the file
(`c9_counterexample`). -/
theorem c9_env_short_circuit (w : World) (env : Env) (fs : Fs) :
    (∀ js : JsStr, env.googleCredentialsJson = some js → js.isEmpty = false →
      js.parseJson = none → loadCredentials w env fs = (none, false)) ∧
    (∀ js : JsStr, env.googleTokensJson = some js → js.isEmpty = false →
      js.parseJson = none → loadTokens w env fs = (none, false)) := by
  constructor
  · intro js hjs he hp
    unfold loadCredentials
    rw [hjs]
    simp [he, hp]
  · intro js hjs he hp
    unfold loadTokens
    rw [hjs]
    simp [he, hp]

/-- The empty string as an environment value: set, falsy, and its
`JSON.parse` throws. -/
def emptyJs : JsStr := ⟨true, none⟩

/-- Environment with `GOOGLE_CREDENTIALS_JSON` set to the empty string. -/
def envC9 : Env := ⟨some emptyJs, none, none, none, none⟩

/-- A filesystem with a valid credentials file at the resolved path. -/
def fsC9 : Fs := ⟨[], [(credentialsPath w0 envC9, credsJs0, 0o600)]⟩

/-- C9 is refuted as stated: with `GOOGLE_CREDENTIALS_JSON` set to the
empty string — which is set and holds malformed JSON (`JSON.parse("")`
throws) — `loadCredentials` does consult the file and returns the parsed
file credentials, because the empty string is falsy in the
`if (envCredentials)` guard. -/
theorem c9_counterexample :
    envC9.googleCredentialsJson = some emptyJs ∧ emptyJs.parseJson = none ∧
    (loadCredentials w0 envC9 fsC9).2 = true ∧
    (loadCredentials w0 envC9 fsC9).1 ≠ none :=
  ⟨rfl, rfl, rfl, by decide⟩

/-- A non-empty malformed environment value. -/
def malformedJs : JsStr := ⟨false, none⟩

/-- Environment with both override variables set to non-empty malformed
JSON. -/
def envC9w : Env := ⟨some malformedJs, some malformedJs, none, none, none⟩

/-- A filesystem holding valid credential and token files at the resolved
paths of the malformed-environment fixture. -/
def fsC9w : Fs :=
  ⟨[], [(credentialsPath w0 envC9w, credsJs0, 0o600),
        (tokenPath w0 envC9w, staleJs, 0o600)]⟩

/-- Witness for C9: the amended theorem at the concrete malformed
environment over a filesystem with valid files. -/
theorem c9_env_short_circuit_witness :
    loadCredentials w0 envC9w fsC9w = (none, false) ∧
    loadTokens w0 envC9w fsC9w = (none, false) :=
  ⟨(c9_env_short_circuit w0 envC9w fsC9w).1 malformedJs rfl rfl rfl,
   (c9_env_short_circuit w0 envC9w fsC9w).2 malformedJs rfl rfl rfl⟩
